import Mathlib

/-!
Shallow embedding of the chatBot_memo repository (src/backend/chatbot.py and
src/backend/calendar_integration.py) and verification of the claims of the
spec about it.

Modelling conventions:
* Python `in` on strings (substring test) is `hasSub`, decidable infix of the
  character lists.
* `str.lower()` is `py_lower`, per-character ASCII lowercasing (the messages
  and keywords involved in the claims are ASCII).
* The external collaborators reached from the chatbot (the CalendarIntegration
  event fetches, the MemoryManager operations and the OpenAI chat-completion
  call) are oracles in an `Env` record.  A call that may raise a Python
  exception is an `Except String` value, the `String` being `str(e)`; a
  `try/except` block in the source becomes a `match` on that value.
  `CalendarIntegration.authenticate` catches every exception internally and
  returns a `Bool`, so its oracle is a plain `Bool`.
* `datetime.utcnow()` is `Env.now`, a count of seconds from a midnight-aligned
  epoch; `.replace(hour=0, minute=0, second=0, microsecond=0)` is
  `now - now % secondsPerDay`.
* The per-user conversation-history dictionary is a total function
  `String → List Turn`: the source creates a missing key as the empty list on
  first access, so a missing key and an empty history are observationally the
  same.
* Google calendar events are opaque dictionaries that the chatbot only passes
  to `format_event`; they are a type parameter `Ev`, and the event renderer
  `format_event` (pure string formatting no claim constrains) is a function
  parameter `fmt`.
-/

/-- Python `pat in s` for strings: substring containment, i.e. the character
list of `pat` is an infix of the character list of `s`. -/
def hasSub (s pat : String) : Bool := decide (pat.toList <:+: s.toList)

/-- Python `s.lower()` restricted to ASCII: lowercase every character. -/
def py_lower (s : String) : String := String.mk (s.data.map Char.toLower)

/-- One entry of `StudentChatbot.conversation_history[user_id]`:
the dict `{"role": ..., "content": ..., "timestamp": ...}`
built by `_add_to_history` (chatbot.py lines 81-89). -/
structure Turn where
  role : String
  content : String
  timestamp : String
deriving DecidableEq, Repr

/-- A message dict sent to the OpenAI chat-completion API:
`{"role": ..., "content": ...}` (chatbot.py lines 264-282). -/
structure ApiMessage where
  role : String
  content : String
deriving DecidableEq, Repr

/-- A record returned by the MemoryManager: a dict read through
`.get("memory", default)`, so the `memory` field may be absent. -/
structure Mem0Record where
  memory : Option String
deriving DecidableEq, Repr

/-- The result of `_detect_intent` (chatbot.py lines 91-127): one of the four
intent strings. -/
inductive Intent where
  | calendar_query
  | store_memory
  | recall_memory
  | general_conversation
deriving DecidableEq, Repr

/-- chatbot.py lines 104-107. -/
def calendar_keywords : List String :=
  ["schedule", "meeting", "calendar", "event", "appointment",
   "today", "tomorrow", "this week", "next week", "when is"]

/-- chatbot.py lines 112-115. -/
def memory_keywords : List String :=
  ["remember", "i prefer", "my favorite", "i like", "i usually",
   "note that", "keep in mind"]

/-- chatbot.py lines 120-123. -/
def recall_keywords : List String :=
  ["what do you know about me", "what have i told you",
   "my preferences", "what do i like", "remind me"]

/-- `StudentChatbot._detect_intent` (chatbot.py lines 91-127): lowercase the
message, then test the three keyword lists in order, first match wins. -/
def _detect_intent (message : String) : Intent :=
  let message_lower := py_lower message
  if calendar_keywords.any (fun k => hasSub message_lower k) then
    Intent.calendar_query
  else if memory_keywords.any (fun k => hasSub message_lower k) then
    Intent.store_memory
  else if recall_keywords.any (fun k => hasSub message_lower k) then
    Intent.recall_memory
  else
    Intent.general_conversation

theorem hasSub_trans {s p q : String} (hq : q.toList <:+: p.toList)
    (hp : hasSub s p = true) : hasSub s q = true := by
  have hp' : p.toList <:+: s.toList := of_decide_eq_true hp
  exact decide_eq_true (hq.trans hp')

/-- Seconds in one day. -/
def secondsPerDay : Nat := 86400

/-- Arguments of a `CalendarIntegration.get_events` call
(calendar_integration.py lines 124-132): the time range and the result cap
(`max_results` defaults to 10). -/
structure TimeWindow where
  time_min : Nat
  time_max : Nat
  max_results : Nat
deriving DecidableEq, Repr

/-- `CalendarIntegration.get_today_events` (calendar_integration.py lines
182-193): from today 00:00 UTC for one day, default cap of 10. -/
def get_today_window (now : Nat) : TimeWindow :=
  { time_min := now - now % secondsPerDay,
    time_max := now - now % secondsPerDay + secondsPerDay,
    max_results := 10 }

/-- `CalendarIntegration.get_week_events` (calendar_integration.py lines
195-205): from now for 7 days, cap of 50. -/
def get_week_window (now : Nat) : TimeWindow :=
  { time_min := now,
    time_max := now + 7 * secondsPerDay,
    max_results := 50 }

/-- The `tomorrow` branch of `_handle_calendar_query` (chatbot.py lines
156-160): tomorrow 00:00 UTC for one day, default cap of 10. -/
def tomorrow_window (now : Nat) : TimeWindow :=
  { time_min := now + secondsPerDay - (now + secondsPerDay) % secondsPerDay,
    time_max := now + secondsPerDay - (now + secondsPerDay) % secondsPerDay
      + secondsPerDay,
    max_results := 10 }

/-- The time-range dispatch of `_handle_calendar_query` (chatbot.py lines
149-165), returning the `get_events` window together with the `time_frame`
string: `today` first, then `this week`/`week`, then `tomorrow`, and the
default branch calls `get_week_events` like the week branch. -/
def select_calendar_window (now : Nat) (message_lower : String) :
    TimeWindow × String :=
  if hasSub message_lower "today" then
    (get_today_window now, "today")
  else if hasSub message_lower "this week" || hasSub message_lower "week" then
    (get_week_window now, "this week")
  else if hasSub message_lower "tomorrow" then
    (tomorrow_window now, "tomorrow")
  else
    (get_week_window now, "upcoming")

/-- The window dispatch in the order claim C4 states it: `today`, then
`tomorrow`, then `week` with cap 50, and a default next-7-days window with
cap 10.  Written from the words of the claim, for comparison with
`select_calendar_window` above. -/
def select_calendar_window_as_claimed (now : Nat) (message_lower : String) :
    TimeWindow × String :=
  if hasSub message_lower "today" then
    (get_today_window now, "today")
  else if hasSub message_lower "tomorrow" then
    (tomorrow_window now, "tomorrow")
  else if hasSub message_lower "week" then
    (get_week_window now, "this week")
  else
    ({ time_min := now, time_max := now + 7 * secondsPerDay,
       max_results := 10 }, "upcoming")

/-- The window dispatch as amended: `today`, then `week` (the source also
tests `this week`, which is subsumed by `week`), then `tomorrow`, and the
default branch is the same next-7-days, cap-50 window as the week branch.
Written from the words of the amended claim, for comparison with
`select_calendar_window`. -/
def select_calendar_window_amended (now : Nat) (message_lower : String) :
    TimeWindow × String :=
  if hasSub message_lower "today" then
    (get_today_window now, "today")
  else if hasSub message_lower "week" then
    (get_week_window now, "this week")
  else if hasSub message_lower "tomorrow" then
    (tomorrow_window now, "tomorrow")
  else
    (get_week_window now, "upcoming")

/-- The numbered entries built by the loop of
`CalendarIntegration.format_events_list` (calendar_integration.py lines
263-264): `f"{i}. {format_event(event)}\n"` for `i` counting from the given
start index. -/
def format_events_entries {Ev : Type} (fmt : Ev → String) :
    Nat → List Ev → String
  | _, [] => ""
  | i, e :: rest =>
      toString i ++ ". " ++ fmt e ++ "\n" ++ format_events_entries fmt (i + 1) rest

/-- `CalendarIntegration.format_events_list` (calendar_integration.py lines
249-266).  `fmt` stands for `CalendarIntegration.format_event`. -/
def format_events_list {Ev : Type} (fmt : Ev → String) (events : List Ev) :
    String :=
  if events.isEmpty then
    "No upcoming events found."
  else
    "Found " ++ toString events.length ++ " event(s):\n\n" ++
      format_events_entries fmt 1 events

/-- The external collaborators the chatbot calls, as oracles.  `Ev` is the
opaque type of Google calendar event dicts.  A `.error e` value stands for the
call raising a Python exception with `str(e) = e`. -/
structure Env (Ev : Type) where
  /-- `self.client is not None`: the OpenAI client was configured. -/
  client : Bool
  /-- `self.calendar.authenticate()` (catches internally, never raises). -/
  authenticate : Bool
  /-- `datetime.utcnow()`, in seconds. -/
  now : Nat
  /-- `datetime.now().isoformat()` at the user-turn append in `chat`. -/
  ts_user : String
  /-- `datetime.now().isoformat()` at the assistant-turn append in `chat`. -/
  ts_assistant : String
  /-- `self.calendar.get_events` / `get_today_events` / `get_week_events`,
  keyed by the window they pass. -/
  get_events : TimeWindow → Except String (List Ev)
  /-- `self.memory_manager.search_memories(user_id, query, limit)`
  (limit defaults to 5 in memory_manager.py). -/
  search_memories : String → String → Nat → Except String (List Mem0Record)
  /-- `self.memory_manager.get_memories(user_id, limit)`
  (limit defaults to 10 in memory_manager.py). -/
  get_memories : String → Nat → Except String (List Mem0Record)
  /-- `self.memory_manager.add_memory(user_id, message, metadata)`; the `Bool`
  is the truthiness of `result.get("success")`. -/
  add_memory : String → String → Except String Bool
  /-- `self.client.chat.completions.create(...)`: the completion text for a
  message list. -/
  llm : List ApiMessage → Except String String

/-- The body of the `try` block of `_handle_calendar_query` after
authentication (chatbot.py lines 149-179): pick the window, fetch events,
report a clear schedule when none, otherwise format the list and append the
first `"study schedule preference"` memory hit, if any. -/
def calendar_query_result {Ev : Type} (env : Env Ev) (fmt : Ev → String)
    (user_id message_lower : String) : Except String String := do
  let wtf := select_calendar_window env.now message_lower
  let events ← env.get_events wtf.1
  if events.isEmpty then
    pure ("You don\x27t have any events scheduled for " ++ wtf.2 ++
      ". Your schedule is clear!")
  else
    let response := "Here are your events for " ++ wtf.2 ++ ":\n\n" ++
      format_events_list fmt events
    let memories ← env.search_memories user_id "study schedule preference" 5
    match memories with
    | [] => pure response
    | m :: _ =>
        pure (response ++ "\n💡 Based on your preferences: " ++ m.memory.getD "")

/-- The `except` clause of `_handle_calendar_query` (chatbot.py lines
181-182). -/
def calendar_catch : Except String String → String
  | .ok r => r
  | .error e => "I encountered an error while accessing your calendar: " ++ e

/-- `StudentChatbot._handle_calendar_query` (chatbot.py lines 129-182).
`service` is whether `self.calendar.service` is already set; the returned
`Bool` is its new value (authentication sets it on success). -/
def _handle_calendar_query {Ev : Type} (env : Env Ev) (fmt : Ev → String)
    (service : Bool) (user_id message : String) : String × Bool :=
  let message_lower := py_lower message
  if service then
    (calendar_catch (calendar_query_result env fmt user_id message_lower), true)
  else if env.authenticate then
    (calendar_catch (calendar_query_result env fmt user_id message_lower), true)
  else
    ("I\x27m having trouble accessing your calendar. Please ensure you\x27ve granted permission and try again.", false)

/-- `StudentChatbot._handle_memory_storage` (chatbot.py lines 184-209). -/
def _handle_memory_storage {Ev : Type} (env : Env Ev)
    (user_id message : String) : String :=
  match env.add_memory user_id message with
  | .ok true =>
      "Got it! I\x27ve made a note of that and will remember it for future conversations. 📝"
  | .ok false =>
      "I tried to remember that, but encountered an issue. Could you try rephrasing?"
  | .error e => "I had trouble storing that information: " ++ e

/-- The numbered list built by the loop of `_handle_memory_recall`
(chatbot.py lines 229-231): `f"{i}. {memory_text}\n"` with `i` counting from
the given start index and `memory_text = mem.get("memory", "N/A")`. -/
def recall_entries : Nat → List Mem0Record → String
  | _, [] => ""
  | i, m :: rest =>
      toString i ++ ". " ++ m.memory.getD "N/A" ++ "\n" ++
        recall_entries (i + 1) rest

/-- `StudentChatbot._handle_memory_recall` (chatbot.py lines 211-237). -/
def _handle_memory_recall {Ev : Type} (env : Env Ev)
    (user_id : String) : String :=
  match env.get_memories user_id 10 with
  | .error e => "I had trouble retrieving your information: " ++ e
  | .ok memories =>
      if memories.isEmpty then
        "I don\x27t have any stored information about you yet. Feel free to share your preferences, and I\x27ll remember them!"
      else
        "Here\x27s what I remember about you:\n\n" ++
          recall_entries 1 memories ++
          "\nIs there anything else you\x27d like me to know?"

/-- `self.system_prompt` (chatbot.py lines 63-71). -/
def system_prompt : String :=
  "You are a helpful AI assistant for students. Your capabilities include:\n" ++
  "1. Remembering student preferences, study habits, and personal information\n" ++
  "2. Accessing and displaying calendar schedules and meetings\n" ++
  "3. Providing personalized recommendations based on stored memories\n" ++
  "4. Helping with time management and scheduling\n\n" ++
  "Always be friendly, supportive, and focused on helping students succeed.\n" ++
  "When discussing schedules, be clear about dates and times.\n" ++
  "When you learn new information about a student, acknowledge that you\x27ll remember it."

/-- The memory context appended to the system prompt
(chatbot.py lines 256-261). -/
def build_memory_context (memories : List Mem0Record) : String :=
  if memories.isEmpty then ""
  else
    "\n\nRelevant information about the user:\n" ++
      String.join (memories.map fun m => "- " ++ m.memory.getD "" ++ "\n")

/-- The message list `_generate_ai_response` builds for the completion call
(chatbot.py lines 263-282): system prompt plus memory context, then the last
5 history entries filtered to user/assistant roles, then the current message
(with `"\n\nAdditional context: "` appended when `context` is non-empty). -/
def build_llm_messages (memories : List Mem0Record) (history : List Turn)
    (message context : String) : List ApiMessage :=
  let sys : ApiMessage := ⟨"system", system_prompt ++ build_memory_context memories⟩
  let recent := history.drop (history.length - 5)
  let histMsgs := (recent.filter fun t =>
    t.role == "user" || t.role == "assistant").map fun t =>
      ApiMessage.mk t.role t.content
  let current_content :=
    if context == "" then message
    else message ++ "\n\nAdditional context: " ++ context
  [sys] ++ histMsgs ++ [⟨"user", current_content⟩]

/-- `StudentChatbot._generate_ai_response` (chatbot.py lines 239-295).
`history` is `self.conversation_history[user_id]` at call time. -/
def _generate_ai_response {Ev : Type} (env : Env Ev) (history : List Turn)
    (user_id message context : String) : String :=
  if !env.client then
    "I\x27m currently unable to generate responses. Please check the OpenAI API configuration."
  else
    match (do
      let memories ← env.search_memories user_id message 3
      env.llm (build_llm_messages memories history message context)
      : Except String String) with
    | .ok r => r
    | .error e => "I encountered an error generating a response: " ++ e

/-- The mutable state of a `StudentChatbot` instance that the claims touch:
the per-user conversation history and whether `self.calendar.service` has
been set. -/
structure ChatState where
  conversation_history : String → List Turn
  calendar_service : Bool

/-- `StudentChatbot._add_to_history` (chatbot.py lines 81-89): append a
role/content/timestamp dict to the history list of the user. -/
def _add_to_history (st : ChatState) (user_id role content timestamp : String) :
    ChatState :=
  { st with conversation_history := fun v =>
      if v = user_id then
        st.conversation_history user_id ++ [⟨role, content, timestamp⟩]
      else st.conversation_history v }

/-- `StudentChatbot.chat` (chatbot.py lines 297-332): append the user turn,
detect the intent, route to the matching handler, append the assistant turn,
return the response. -/
def chat {Ev : Type} (env : Env Ev) (fmt : Ev → String) (st : ChatState)
    (user_id message : String) : String × ChatState :=
  let st1 := _add_to_history st user_id "user" message env.ts_user
  let rs : String × ChatState :=
    match _detect_intent message with
    | Intent.calendar_query =>
        let rc := _handle_calendar_query env fmt st1.calendar_service user_id message
        (rc.1, { st1 with calendar_service := rc.2 })
    | Intent.store_memory =>
        let memory_response := _handle_memory_storage env user_id message
        let ai_response :=
          _generate_ai_response env (st1.conversation_history user_id)
            user_id message ""
        (memory_response ++ "\n\n" ++ ai_response, st1)
    | Intent.recall_memory => (_handle_memory_recall env user_id, st1)
    | Intent.general_conversation =>
        (_generate_ai_response env (st1.conversation_history user_id)
          user_id message "", st1)
  let st3 := _add_to_history rs.2 user_id "assistant" rs.1 env.ts_assistant
  (rs.1, st3)

/-- `StudentChatbot.reset_conversation` (chatbot.py lines 334-338).  The
source empties the list only when the key is present; on the total-function
model an absent key is already the empty list, so the two coincide. -/
def reset_conversation (st : ChatState) (user_id : String) : ChatState :=
  { st with conversation_history := fun v =>
      if v = user_id then [] else st.conversation_history v }

/-- The dict returned by `StudentChatbot.get_statistics`
(chatbot.py lines 353-358). -/
structure Statistics where
  total_messages : Nat
  stored_memories : Nat
  conversation_started : Option String
  last_interaction : Option String
deriving DecidableEq, Repr

/-- `StudentChatbot.get_statistics` (chatbot.py lines 340-358).  The
`get_memories` call is not wrapped in a `try`, so an error from it
propagates. -/
def get_statistics {Ev : Type} (env : Env Ev) (st : ChatState)
    (user_id : String) : Except String Statistics := do
  let history := st.conversation_history user_id
  let memories ← env.get_memories user_id 10
  pure
    { total_messages := history.length,
      stored_memories := memories.length,
      conversation_started := history.head?.map Turn.timestamp,
      last_interaction := history.getLast?.map Turn.timestamp }

/-- Claim C3: a message containing (case-insensitively) any calendar keyword
is classified `calendar_query`, whatever other keywords it contains — the
calendar list is tested first in `_detect_intent`. -/
theorem detect_intent_calendar_first (message kw : String)
    (hmem : kw ∈ calendar_keywords)
    (hsub : hasSub (py_lower message) kw = true) :
    _detect_intent message = Intent.calendar_query := by
  have hany : calendar_keywords.any (fun k => hasSub (py_lower message) k) = true :=
    List.any_eq_true.mpr ⟨kw, hmem, hsub⟩
  unfold _detect_intent
  simp [hany]

/-- Witness for C3 on a message that also contains the store-memory keyword
`remember`. -/
theorem detect_intent_calendar_first_witness :
    hasSub (py_lower "Remember my meeting") "remember" = true ∧
    _detect_intent "Remember my meeting" = Intent.calendar_query :=
  ⟨by decide,
   detect_intent_calendar_first "Remember my meeting" "meeting" (by decide) (by decide)⟩

/-- Claim C5, counterexample: `"What do I like?"` contains the recall keyword
`what do i like` and no calendar keyword, yet `_detect_intent` classifies it
`store_memory`, because the store-memory keyword `i like` is a substring of
`what do i like` and the store-memory list is tested first. -/
theorem what_do_i_like_counterexample :
    hasSub (py_lower "What do I like?") "what do i like" = true ∧
    calendar_keywords.all
      (fun k => !(hasSub (py_lower "What do I like?") k)) = true ∧
    _detect_intent "What do I like?" = Intent.store_memory ∧
    _detect_intent "What do I like?" ≠ Intent.recall_memory := by decide

/-- Claim C5 as amended: every message that contains `what do i like`
(case-insensitively) and no calendar keyword is classified `store_memory`,
since `i like` is a store-memory keyword contained in `what do i like` and
the store-memory list is tested before the recall list. -/
theorem detect_intent_what_do_i_like_store (message : String)
    (hsub : hasSub (py_lower message) "what do i like" = true)
    (hcal : ∀ kw ∈ calendar_keywords, hasSub (py_lower message) kw = false) :
    _detect_intent message = Intent.store_memory := by
  have hil : hasSub (py_lower message) "i like" = true :=
    hasSub_trans (by decide) hsub
  have hmem : memory_keywords.any (fun k => hasSub (py_lower message) k) = true :=
    List.any_eq_true.mpr ⟨"i like", by decide, hil⟩
  have hcal' : calendar_keywords.any (fun k => hasSub (py_lower message) k) = false := by
    rcases h : calendar_keywords.any (fun k => hasSub (py_lower message) k) with _ | _
    · rfl
    · obtain ⟨kw, hkw, hkw'⟩ := List.any_eq_true.mp h
      rw [hcal kw hkw] at hkw'
      exact absurd hkw' (by decide)
  unfold _detect_intent
  simp [hcal', hmem]

/-- Witness for the amended C5 at the message `what do i like`. -/
theorem detect_intent_what_do_i_like_store_witness :
    _detect_intent "what do i like" = Intent.store_memory :=
  detect_intent_what_do_i_like_store "what do i like" (by decide) (by decide)

/-- Claim C4, counterexample: the source checks `week` before `tomorrow` and
its default branch also calls `get_week_events` (cap 50), while the claim puts
`tomorrow` before `week` and gives the default branch a cap of 10.  The two
orders disagree on `"free this weekend tomorrow?"` (the source picks the week
window because `weekend` contains `week`), and on `"my schedule"` (a calendar
message with none of the three time words) the source fetches with cap 50,
not 10. -/
theorem calendar_window_selection_differs :
    _detect_intent "my schedule" = Intent.calendar_query ∧
    (select_calendar_window 0 (py_lower "my schedule")).1.max_results = 50 ∧
    (select_calendar_window_as_claimed 0 (py_lower "my schedule")).1.max_results = 10 ∧
    _detect_intent "free this weekend tomorrow?" = Intent.calendar_query ∧
    (select_calendar_window 0 (py_lower "free this weekend tomorrow?")).2 = "this week" ∧
    (select_calendar_window_as_claimed 0 (py_lower "free this weekend tomorrow?")).2 = "tomorrow" := by
  decide

/-- Claim C4 as amended: the window dispatch tests `today` first, then `week`
(within which the `this week` test is redundant), then `tomorrow`, and in the
default case fetches the same next-7-days, cap-50 window as the week branch. -/
theorem select_calendar_window_eq_amended (now : Nat) (ml : String) :
    select_calendar_window now ml = select_calendar_window_amended now ml := by
  unfold select_calendar_window select_calendar_window_amended
  rcases hw : hasSub ml "week" with _ | _
  · have htw : hasSub ml "this week" = false := by
      rcases h : hasSub ml "this week" with _ | _
      · rfl
      · have := hasSub_trans (p := "this week") (q := "week") (by decide) h
        rw [hw] at this
        exact absurd this (by decide)
    simp [hw, htw]
  · simp [hw]

/-- Claim C6: when the calendar service is not yet initialized and
`authenticate()` returns false, `_handle_calendar_query` returns the fixed
apology and leaves the service unset; moreover the result does not depend on
the `get_events` oracle at all — no event fetch is made. -/
theorem calendar_auth_failure_no_fetch {Ev : Type} (env : Env Ev)
    (fmt : Ev → String) (user_id message : String)
    (hauth : env.authenticate = false) :
    _handle_calendar_query env fmt false user_id message =
      ("I\x27m having trouble accessing your calendar. Please ensure you\x27ve granted permission and try again.", false) ∧
    (∀ g, _handle_calendar_query { env with get_events := g } fmt false
        user_id message =
      _handle_calendar_query env fmt false user_id message) ∧
    ∀ st : ChatState, st.calendar_service = false →
      _detect_intent message = Intent.calendar_query →
      (chat env fmt st user_id message).1 =
        "I\x27m having trouble accessing your calendar. Please ensure you\x27ve granted permission and try again." := by
  have hh : _handle_calendar_query env fmt false user_id message =
      ("I\x27m having trouble accessing your calendar. Please ensure you\x27ve granted permission and try again.", false) := by
    unfold _handle_calendar_query
    simp [hauth]
  refine ⟨hh, ?_, ?_⟩
  · intro g
    unfold _handle_calendar_query
    simp [hauth]
  · intro st hsv hi
    unfold chat _add_to_history
    simp only [hi, hsv, hh]

/-- A fully concrete environment with failing calendar authentication. -/
def envAuthFail : Env Unit where
  client := true
  authenticate := false
  now := 0
  ts_user := "2025-01-01T09:00:00"
  ts_assistant := "2025-01-01T09:00:01"
  get_events := fun _ => Except.ok []
  search_memories := fun _ _ _ => Except.ok []
  get_memories := fun _ _ => Except.ok []
  add_memory := fun _ _ => Except.ok true
  llm := fun _ => Except.ok "reply"

/-- Witness for C6 at a concrete environment and message. -/
theorem calendar_auth_failure_no_fetch_witness :
    _handle_calendar_query envAuthFail (fun _ => "") false "u" "when is my exam" =
      ("I\x27m having trouble accessing your calendar. Please ensure you\x27ve granted permission and try again.", false) :=
  (calendar_auth_failure_no_fetch envAuthFail (fun _ => "") "u" "when is my exam" rfl).1

/-- Claim C7: with no configured LLM client, `_generate_ai_response` returns
the fixed unavailability message, for every history, message and context, and
independently of the LLM and memory-search oracles — neither is called. -/
theorem llm_unconfigured_fixed_message {Ev : Type} (env : Env Ev)
    (history : List Turn) (user_id message context : String)
    (hclient : env.client = false) :
    _generate_ai_response env history user_id message context =
      "I\x27m currently unable to generate responses. Please check the OpenAI API configuration." ∧
    ∀ l s, _generate_ai_response { env with llm := l, search_memories := s }
        history user_id message context =
      _generate_ai_response env history user_id message context := by
  unfold _generate_ai_response
  simp [hclient]

/-- A fully concrete environment with no LLM client configured. -/
def envNoClient : Env Unit where
  client := false
  authenticate := true
  now := 0
  ts_user := "2025-01-01T09:00:00"
  ts_assistant := "2025-01-01T09:00:01"
  get_events := fun _ => Except.ok []
  search_memories := fun _ _ _ => Except.ok []
  get_memories := fun _ _ => Except.ok []
  add_memory := fun _ _ => Except.ok true
  llm := fun _ => Except.ok "reply"

/-- Witness for C7 at a concrete environment and message. -/
theorem llm_unconfigured_fixed_message_witness :
    _generate_ai_response envNoClient [] "u" "tell me a joke" "" =
      "I\x27m currently unable to generate responses. Please check the OpenAI API configuration." :=
  (llm_unconfigured_fixed_message envNoClient [] "u" "tell me a joke" "" rfl).1

theorem string_join_cons (x : String) (l : List String) :
    String.join (x :: l) = x ++ String.join l := by
  have haux : ∀ (m : List String) (a : String),
      List.foldl (fun r s => r ++ s) a m =
        a ++ List.foldl (fun r s => r ++ s) "" m := by
    intro m
    induction m with
    | nil => intro a; simp [List.foldl]
    | cons y ys ih =>
        intro a
        simp only [List.foldl]
        rw [ih (a ++ y), ih ("" ++ y), String.append_assoc]
        simp
  simp only [String.join, List.foldl]
  rw [haux l ("" ++ x)]
  simp

theorem format_events_entries_eq_enumFrom {Ev : Type} (fmt : Ev → String)
    (i : Nat) (events : List Ev) :
    format_events_entries fmt i events =
      String.join ((List.enumFrom i events).map fun p =>
        toString p.1 ++ ". " ++ fmt p.2 ++ "\n") := by
  induction events generalizing i with
  | nil => rfl
  | cons e rest ih =>
      simp only [format_events_entries, List.enumFrom, List.map,
        string_join_cons, ih (i + 1)]

/-- Claim C8: `format_events_list` of the empty list is exactly
`"No upcoming events found."`, and of a non-empty list is the
`"Found n event(s):"` header followed by the 1-indexed numbered entries of
the events in order. -/
theorem format_events_list_spec {Ev : Type} (fmt : Ev → String) :
    format_events_list fmt [] = "No upcoming events found." ∧
    ∀ events : List Ev, events ≠ [] →
      format_events_list fmt events =
        "Found " ++ toString events.length ++ " event(s):\n\n" ++
          String.join ((List.enumFrom 1 events).map fun p =>
            toString p.1 ++ ". " ++ fmt p.2 ++ "\n") := by
  constructor
  · rfl
  · intro events h
    unfold format_events_list
    rw [if_neg (by simp [h]), format_events_entries_eq_enumFrom]

/-- Witness for C8 at a concrete two-event list. -/
theorem format_events_list_spec_witness :
    format_events_list (fun _ : Unit => "E") [(), ()] =
      "Found 2 event(s):\n\n1. E\n2. E\n" := by
  rw [(format_events_list_spec (fun _ : Unit => "E")).2 [(), ()] (by simp)]
  rfl

/-- Claim C9: after `reset_conversation(u)` the history of `u` is empty, and
`get_statistics(u)` (whose memory lookup returns `ms`) reports 0 total
messages with no first- or last-interaction timestamp. -/
theorem reset_conversation_statistics {Ev : Type} (env : Env Ev)
    (st : ChatState) (user_id : String) (ms : List Mem0Record)
    (h : env.get_memories user_id 10 = Except.ok ms) :
    (reset_conversation st user_id).conversation_history user_id = [] ∧
    get_statistics env (reset_conversation st user_id) user_id =
      Except.ok { total_messages := 0, stored_memories := ms.length,
                  conversation_started := none, last_interaction := none } := by
  unfold reset_conversation get_statistics
  simp [h, Except.bind]

/-- A fully concrete environment whose memory store holds one record. -/
def envStats : Env Unit where
  client := true
  authenticate := true
  now := 0
  ts_user := "2025-01-01T09:00:00"
  ts_assistant := "2025-01-01T09:00:01"
  get_events := fun _ => Except.ok []
  search_memories := fun _ _ _ => Except.ok []
  get_memories := fun _ _ => Except.ok [⟨some "likes mornings"⟩]
  add_memory := fun _ _ => Except.ok true
  llm := fun _ => Except.ok "reply"

/-- Witness for C9 at a concrete non-empty starting history. -/
theorem reset_conversation_statistics_witness :
    get_statistics envStats
      (reset_conversation
        ⟨fun _ => [⟨"user", "hi", "t0"⟩, ⟨"assistant", "hello", "t1"⟩], false⟩
        "u") "u" =
      Except.ok { total_messages := 0, stored_memories := 1,
                  conversation_started := none, last_interaction := none } :=
  (reset_conversation_statistics envStats
    ⟨fun _ => [⟨"user", "hi", "t0"⟩, ⟨"assistant", "hello", "t1"⟩], false⟩
    "u" [⟨some "likes mornings"⟩] rfl).2

/-- Claim C1: one `chat(u, m)` call appends exactly two turns to the history
of `u` — first a user turn carrying `m`, then an assistant turn carrying the
string `chat` returns — and leaves the history of every other user id
unchanged. -/
theorem chat_appends_two_turns {Ev : Type} (env : Env Ev) (fmt : Ev → String)
    (st : ChatState) (u m : String) :
    (chat env fmt st u m).2.conversation_history u =
      st.conversation_history u ++
        [⟨"user", m, env.ts_user⟩,
         ⟨"assistant", (chat env fmt st u m).1, env.ts_assistant⟩] ∧
    ∀ v, v ≠ u →
      (chat env fmt st u m).2.conversation_history v =
        st.conversation_history v := by
  unfold chat _add_to_history
  cases h : _detect_intent m <;>
    refine ⟨by simp [h], fun v hv => by simp [h, hv]⟩

/-- A fully concrete benign environment for exercising `chat`. -/
def envChat : Env Unit where
  client := true
  authenticate := true
  now := 0
  ts_user := "2025-01-01T09:00:00"
  ts_assistant := "2025-01-01T09:00:01"
  get_events := fun _ => Except.ok []
  search_memories := fun _ _ _ => Except.ok []
  get_memories := fun _ _ => Except.ok []
  add_memory := fun _ _ => Except.ok true
  llm := fun _ => Except.ok "reply"

/-- Witness for C1: a chat by `alice` leaves the history of `bob` empty. -/
theorem chat_appends_two_turns_witness :
    (chat envChat (fun _ => "") ⟨fun _ => [], false⟩ "alice" "hello").2.conversation_history "bob" = [] :=
  (chat_appends_two_turns envChat (fun _ => "") ⟨fun _ => [], false⟩
    "alice" "hello").2 "bob" (by decide)

/-- A fully concrete environment whose memory store raises on `add_memory`
and whose LLM client is absent. -/
def envMemFail : Env Unit where
  client := false
  authenticate := false
  now := 0
  ts_user := "2025-01-01T09:00:00"
  ts_assistant := "2025-01-01T09:00:01"
  get_events := fun _ => Except.ok []
  search_memories := fun _ _ _ => Except.ok []
  get_memories := fun _ _ => Except.ok []
  add_memory := fun _ _ => Except.error "boom"
  llm := fun _ => Except.ok "reply"

set_option maxRecDepth 100000 in
/-- Claim C2, counterexample: a raising `add_memory` call is caught, but the
string `chat` returns opens with `I had trouble storing that information:`,
not with the claimed `I encountered an error` form. -/
theorem chat_memory_error_not_encountered_form :
    (chat envMemFail (fun _ => "") ⟨fun _ => [], false⟩ "u" "remember x").1 =
      "I had trouble storing that information: boom\n\nI\x27m currently unable to generate responses. Please check the OpenAI API configuration." ∧
    ¬ ("I encountered an error".toList <+:
        (chat envMemFail (fun _ => "") ⟨fun _ => [], false⟩ "u" "remember x").1.toList) := by
  decide

theorem except_bind_ok {ε α β : Type} (a : α) (f : α → Except ε β) :
    (Except.ok a : Except ε α) >>= f = f a := rfl

theorem except_bind_error {ε α β : Type} (e : ε) (f : α → Except ε β) :
    (Except.error e : Except ε α) >>= f = Except.error e := rfl

/-- Claim C2 as amended: every external-call error raised inside a handler is
caught there and converted to a user-facing string that ends in the raised
message; the prefix is `I encountered an error while accessing your
calendar: ` for calendar-branch errors and `I encountered an error generating
a response: ` for LLM-branch errors, but `I had trouble storing that
information: ` and `I had trouble retrieving your information: ` for the
memory store and recall branches.  No exception reaches the caller of `chat`
(every handler is a total function of the oracle outcomes). -/
theorem external_errors_caught {Ev : Type} (env : Env Ev) (fmt : Ev → String)
    (user_id message e : String) :
    (env.get_events (select_calendar_window env.now (py_lower message)).1 =
        Except.error e →
      (_handle_calendar_query env fmt true user_id message).1 =
        "I encountered an error while accessing your calendar: " ++ e) ∧
    (∀ events, events ≠ [] →
      env.get_events (select_calendar_window env.now (py_lower message)).1 =
        Except.ok events →
      env.search_memories user_id "study schedule preference" 5 =
        Except.error e →
      (_handle_calendar_query env fmt true user_id message).1 =
        "I encountered an error while accessing your calendar: " ++ e) ∧
    (env.add_memory user_id message = Except.error e →
      _handle_memory_storage env user_id message =
        "I had trouble storing that information: " ++ e) ∧
    (env.get_memories user_id 10 = Except.error e →
      _handle_memory_recall env user_id =
        "I had trouble retrieving your information: " ++ e) ∧
    (env.client = true → env.search_memories user_id message 3 = Except.error e →
      ∀ history context,
        _generate_ai_response env history user_id message context =
          "I encountered an error generating a response: " ++ e) ∧
    (env.client = true → ∀ memories history context,
      env.search_memories user_id message 3 = Except.ok memories →
      env.llm (build_llm_messages memories history message context) =
        Except.error e →
      _generate_ai_response env history user_id message context =
        "I encountered an error generating a response: " ++ e) := by
  refine ⟨?_, ?_, ?_, ?_, ?_, ?_⟩
  · intro hge
    unfold _handle_calendar_query calendar_query_result calendar_catch
    simp only [hge, except_bind_error]
    rfl
  · intro events hne hge hsm
    unfold _handle_calendar_query calendar_query_result calendar_catch
    cases events with
    | nil => exact absurd rfl hne
    | cons a rest =>
        simp only [hge, hsm, except_bind_ok, except_bind_error]
        rfl
  · intro ham
    unfold _handle_memory_storage
    rw [ham]
  · intro hgm
    unfold _handle_memory_recall
    rw [hgm]
  · intro hc hsm history context
    unfold _generate_ai_response
    simp only [hc, hsm, except_bind_error]
    rfl
  · intro hc memories history context hsm hllm
    unfold _generate_ai_response
    simp only [hc, hsm, except_bind_ok, hllm]
    rfl

/-- A concrete environment in which every external call raises `boom`. -/
def envErrAll : Env Unit where
  client := true
  authenticate := true
  now := 0
  ts_user := "2025-01-01T09:00:00"
  ts_assistant := "2025-01-01T09:00:01"
  get_events := fun _ => Except.error "boom"
  search_memories := fun _ _ _ => Except.error "boom"
  get_memories := fun _ _ => Except.error "boom"
  add_memory := fun _ _ => Except.error "boom"
  llm := fun _ => Except.error "boom"

/-- A concrete environment in which the event fetch succeeds with one event
but the memory search raises `boom`. -/
def envErrSearch : Env Unit where
  client := true
  authenticate := true
  now := 0
  ts_user := "2025-01-01T09:00:00"
  ts_assistant := "2025-01-01T09:00:01"
  get_events := fun _ => Except.ok [()]
  search_memories := fun _ _ _ => Except.error "boom"
  get_memories := fun _ _ => Except.ok []
  add_memory := fun _ _ => Except.ok true
  llm := fun _ => Except.ok "reply"

/-- A concrete environment in which only the completion call raises `boom`. -/
def envErrLlm : Env Unit where
  client := true
  authenticate := true
  now := 0
  ts_user := "2025-01-01T09:00:00"
  ts_assistant := "2025-01-01T09:00:01"
  get_events := fun _ => Except.ok []
  search_memories := fun _ _ _ => Except.ok []
  get_memories := fun _ _ => Except.ok []
  add_memory := fun _ _ => Except.ok true
  llm := fun _ => Except.error "boom"

/-- Witness for the amended C2 at concrete failing environments, covering all
six catch sites. -/
theorem external_errors_caught_witness :
    (_handle_calendar_query envErrAll (fun _ => "") true "u" "my schedule").1 =
      "I encountered an error while accessing your calendar: boom" ∧
    (_handle_calendar_query envErrSearch (fun _ => "") true "u" "my schedule").1 =
      "I encountered an error while accessing your calendar: boom" ∧
    _handle_memory_storage envErrAll "u" "remember x" =
      "I had trouble storing that information: boom" ∧
    _handle_memory_recall envErrAll "u" =
      "I had trouble retrieving your information: boom" ∧
    _generate_ai_response envErrAll [] "u" "hi" "" =
      "I encountered an error generating a response: boom" ∧
    _generate_ai_response envErrLlm [] "u" "hi" "" =
      "I encountered an error generating a response: boom" :=
  ⟨(external_errors_caught envErrAll (fun _ => "") "u" "my schedule" "boom").1 rfl,
   (external_errors_caught envErrSearch (fun _ => "") "u" "my schedule" "boom").2.1
     [()] (by decide) rfl rfl,
   (external_errors_caught envErrAll (fun _ => "") "u" "remember x" "boom").2.2.1 rfl,
   (external_errors_caught envErrAll (fun _ => "") "u" "remember x" "boom").2.2.2.1 rfl,
   (external_errors_caught envErrAll (fun _ => "") "u" "hi" "boom").2.2.2.2.1 rfl rfl [] "",
   (external_errors_caught envErrLlm (fun _ => "") "u" "hi" "boom").2.2.2.2.2 rfl [] [] "" rfl rfl⟩

theorem drop_append_one {α : Type} (l : List α) (x : α) (n : Nat)
    (h : n ≤ l.length) : (l ++ [x]).drop n = l.drop n ++ [x] :=
  List.drop_append_of_le_length h

theorem build_llm_messages_appended_user (mems : List Mem0Record)
    (l : List Turn) (m ts : String) :
    build_llm_messages mems (l ++ [⟨"user", m, ts⟩]) m "" =
      (ApiMessage.mk "system" (system_prompt ++ build_memory_context mems) ::
        ((l.drop ((l ++ [(⟨"user", m, ts⟩ : Turn)]).length - 5)).filter
          (fun t => t.role == "user" || t.role == "assistant")).map
            (fun t => ApiMessage.mk t.role t.content)) ++
        [⟨"user", m⟩, ⟨"user", m⟩] := by
  have hn : (l ++ [(⟨"user", m, ts⟩ : Turn)]).length - 5 ≤ l.length := by
    simp only [List.length_append, List.length_cons, List.length_nil]
    omega
  unfold build_llm_messages
  simp only [drop_append_one l ⟨"user", m, ts⟩ _ hn, List.filter_append,
    List.map_append, List.filter_cons, List.filter_nil, List.map_cons,
    List.map_nil]
  simp

/-- Claim C10: because `chat` appends the user turn before dispatching, on the
general-conversation path with a configured client the message list handed to
the completion call ends with the current user message twice: once as the
image of the freshly appended history turn surviving the last-5 slice and
role filter, and once as the separately appended final message.  The second
conjunct ties the list to `chat` itself: the response of `chat` is exactly
the caught completion call on that list. -/
theorem llm_receives_message_twice {Ev : Type} (env : Env Ev)
    (fmt : Ev → String) (st : ChatState) (u m : String)
    (mems : List Mem0Record)
    (hintent : _detect_intent m = Intent.general_conversation)
    (hclient : env.client = true)
    (hsearch : env.search_memories u m 3 = Except.ok mems) :
    (∃ pre, build_llm_messages mems
        (st.conversation_history u ++ [⟨"user", m, env.ts_user⟩]) m "" =
      pre ++ [⟨"user", m⟩, ⟨"user", m⟩]) ∧
    (chat env fmt st u m).1 =
      (match env.llm (build_llm_messages mems
          (st.conversation_history u ++ [⟨"user", m, env.ts_user⟩]) m "") with
       | Except.ok r => r
       | Except.error e =>
           "I encountered an error generating a response: " ++ e) := by
  constructor
  · exact ⟨_, build_llm_messages_appended_user mems (st.conversation_history u)
      m env.ts_user⟩
  · unfold chat _generate_ai_response _add_to_history
    simp only [hintent, hclient, hsearch, except_bind_ok]
    simp

/-- A concrete benign environment with a configured client for the
general-conversation path. -/
def envGen : Env Unit where
  client := true
  authenticate := true
  now := 0
  ts_user := "2025-01-01T09:00:00"
  ts_assistant := "2025-01-01T09:00:01"
  get_events := fun _ => Except.ok []
  search_memories := fun _ _ _ => Except.ok []
  get_memories := fun _ _ => Except.ok []
  add_memory := fun _ _ => Except.ok true
  llm := fun _ => Except.ok "reply"

/-- Witness for C10 at a concrete general-conversation exchange. -/
theorem llm_receives_message_twice_witness :
    (∃ pre, build_llm_messages []
        ([] ++ [(⟨"user", "hello", "2025-01-01T09:00:00"⟩ : Turn)]) "hello" "" =
      pre ++ [⟨"user", "hello"⟩, ⟨"user", "hello"⟩]) ∧
    (chat envGen (fun _ => "") ⟨fun _ => [], false⟩ "u" "hello").1 = "reply" := by
  have h := llm_receives_message_twice envGen (fun _ => "")
    ⟨fun _ => [], false⟩ "u" "hello" [] (by decide) rfl rfl
  exact ⟨h.1, by rw [h.2]; rfl⟩
